import Mathlib

/-!
Shallow embedding of the client-side chat/automation state machines of this
repository:

* `StreamingChat` — the WebSocket-driven component (`StreamingChat.jsx`,
  shipped inside `browser_agent_ui/README.md`): transcript of turns,
  `sendMessage`, `handleWebSocketMessage`, the show-browser flag, the
  project ledger, and the reconnecting connection manager of
  `connectWebSocket`.
* `TerminalChat` — the REST-driven component of `frontend/src/App.js`:
  `loadChatHistory` and `sendMessage` with its success / failure paths.

JavaScript objects become Lean structures; fields that are `undefined`
until assigned become `Option`; JS truthiness tests on possibly-missing
booleans become `Bool` fields that are `false` when absent; `JSON.parse`
becomes a decoder that either yields the parsed envelope or fails.
-/

/-- Whitespace as stripped by JavaScript `String.prototype.trim` (restricted
to the ASCII whitespace characters that occur in this development; JS also
strips further Unicode space characters, which never arise here). -/
def jsWhitespace (c : Char) : Bool :=
  c == ' ' || c == '\t' || c == '\n' || c == '\r'

/-- Embedding of JavaScript `input.trim()`: drop leading and trailing
whitespace. Defined over the character list so that it is fully computable
in the kernel. -/
def jsTrim (s : String) : String :=
  String.mk (((s.data.dropWhile jsWhitespace).reverse.dropWhile jsWhitespace).reverse)

namespace StreamingChat

/-- The `project_created` record of the inbound envelope:
`{project_name, template, files_created[]}`. -/
structure Project where
  project_name : String
  template : String
  files_created : List String
deriving Repr, DecidableEq

/-- One transcript entry. Created by `sendMessage` as
`{type: 'user', content, timestamp, id}`; the response fields are assigned
later by `handleWebSocketMessage` and are `none` until then. -/
structure Turn where
  ty : String
  content : String
  timestamp : Nat
  id : String
  response : Option String := none
  provider : Option String := none
  model : Option String := none
  browser_action : Option String := none
  screenshot : Option String := none
  project_created : Option Project := none
  needs_browser : Option Bool := none
deriving Repr, DecidableEq

/-- The payload of an inbound `type: "ai_response"` envelope
(`content`, `provider`, `model`, optional `browser_action`, `screenshot`,
`project_created`, and `needs_browser`, the latter `false` when absent,
matching JS truthiness of a missing field). -/
structure AiResponse where
  content : String
  provider : String
  model : String
  browser_action : Option String := none
  screenshot : Option String := none
  project_created : Option Project := none
  needs_browser : Bool := false
deriving Repr, DecidableEq

/-- A decoded inbound envelope: `handleWebSocketMessage` only acts on
`data.type === 'ai_response'`; any other `type` value leaves the component
state untouched. -/
inductive WsData where
  | aiResponse (e : AiResponse)
  | other (ty : String)
deriving Repr, DecidableEq

/-- A raw frame on the wire: either well-formed JSON carrying an envelope, or
a malformed payload on which `JSON.parse` throws. -/
inductive Raw where
  | wellFormed (d : WsData)
  | malformed (text : String)
deriving Repr, DecidableEq

/-- `JSON.parse(event.data)`: succeeds exactly on well-formed frames. -/
def decodeRaw : Raw → Option WsData
  | Raw.wellFormed d => some d
  | Raw.malformed _ => none

/-- The outbound `chat_message` envelope built by `sendMessage`. -/
structure OutPayload where
  ty : String
  content : String
  provider : String
  model : String
  use_agents : Bool
  session_id : String
deriving Repr, DecidableEq

/-- Component props with their defaults (`defaultProvider = 'openai'`,
`defaultModel = 'gpt-4'`). -/
structure SCConfig where
  defaultProvider : String := "openai"
  defaultModel : String := "gpt-4"
deriving Repr, DecidableEq

/-- The React state of `StreamingChat`: `messages`, `input`, `loading`,
`connected`, `showBrowser`, `projects`, and `browserSession` (which the
component never sets; only its `sessionId` is read with default
`'default'`). -/
structure ChatState where
  messages : List Turn
  input : String
  loading : Bool
  connected : Bool
  showBrowser : Bool
  projects : List Project
  browserSession : Option String
deriving Repr, DecidableEq

/-- Initial state of the component's `useState` hooks. -/
def initState : ChatState :=
  { messages := [], input := "", loading := false, connected := false,
    showBrowser := false, projects := [], browserSession := none }

/-- `updated[updated.length - 1]` mutation guarded by
`lastMsg && lastMsg.type === 'user'`: apply `f` to the last element when it
exists and its `type` is `'user'`; otherwise leave the list unchanged. -/
def setLastIfUser {α : Type} (isUser : α → Bool) (f : α → α) : List α → List α
  | [] => []
  | [t] => [if isUser t then f t else t]
  | t :: u :: ts => t :: setLastIfUser isUser f (u :: ts)

/-- The field assignments of `handleWebSocketMessage` on the last message:
`response = data.content`, `provider = data.provider`, `model = data.model`,
`browser_action`, `screenshot`, `project_created`, `needs_browser` — all
verbatim from the event. -/
def applyResponse (t : Turn) (e : AiResponse) : Turn :=
  { t with
    response := some e.content
    provider := some e.provider
    model := some e.model
    browser_action := e.browser_action
    screenshot := e.screenshot
    project_created := e.project_created
    needs_browser := some e.needs_browser }

/-- The `setMessages` updater of `handleWebSocketMessage`. -/
def completeLast (msgs : List Turn) (e : AiResponse) : List Turn :=
  setLastIfUser (fun t => t.ty == "user") (fun t => applyResponse t e) msgs

/-- `handleWebSocketMessage(data)`: on `ai_response`, completes the last
user message, clears `loading`, sets `showBrowser` when `needs_browser` is
truthy, and appends `data.project_created` to `projects` when present.
Any other `type` leaves the state unchanged. -/
def handleWebSocketMessage (st : ChatState) (d : WsData) : ChatState :=
  match d with
  | WsData.aiResponse e =>
    { st with
      messages := completeLast st.messages e
      loading := false
      showBrowser := if e.needs_browser then true else st.showBrowser
      projects :=
        match e.project_created with
        | some p => st.projects ++ [p]
        | none => st.projects }
  | WsData.other _ => st

/-- The `onmessage` handler: `JSON.parse` then `handleWebSocketMessage`.
A malformed frame makes `JSON.parse` throw before any state mutation, so
the handler invocation aborts with a decode error. -/
def onWsMessage (st : ChatState) (r : Raw) : Except String ChatState :=
  match decodeRaw r with
  | none => Except.error "DecodeError"
  | some d => Except.ok (handleWebSocketMessage st d)

/-- The guard of `sendMessage`:
`if (!input.trim() || loading || !connected) return;`. -/
def submitRejected (st : ChatState) : Bool :=
  jsTrim st.input == "" || st.loading || !st.connected

/-- The fresh user message `{type:'user', content: input.trim(),
timestamp: new Date(), id: Date.now().toString()}`. -/
def newUserTurn (content : String) (now : Nat) : Turn :=
  { ty := "user", content := content, timestamp := now, id := toString now }

/-- `sendMessage()`: when the guard passes, appends the new user turn, sets
`loading`, clears the input, and — only if the underlying socket's
`readyState` is `OPEN` at that moment — sends the `chat_message` payload.
Returns the new state and the payload actually written to the socket
(`none` when nothing was sent). -/
def sendMessage (cfg : SCConfig) (st : ChatState) (now : Nat)
    (readyStateOpen : Bool) : ChatState × Option OutPayload :=
  if submitRejected st then (st, none)
  else
    let userMessage := newUserTurn (jsTrim st.input) now
    let st' := { st with
      messages := st.messages ++ [userMessage]
      loading := true
      input := "" }
    let payload : OutPayload :=
      { ty := "chat_message", content := userMessage.content,
        provider := cfg.defaultProvider, model := cfg.defaultModel,
        use_agents := true,
        session_id := st.browserSession.getD "default" }
    if readyStateOpen then (st', some payload) else (st', none)

/-- The externally triggered transitions of the component: typing into the
input box, clicking send (with the socket's `readyState` at that instant),
the socket's `onopen` / `onclose` handlers, delivery of one inbound frame,
and the manual `Minimize` button (`setShowBrowser(false)`). An uncaught
decode error in `onmessage` leaves the state as it was. -/
inductive Event where
  | typeInput (text : String)
  | submit (now : Nat) (readyStateOpen : Bool)
  | wsOpen
  | wsClose
  | wsRaw (r : Raw)
  | minimize
deriving Repr, DecidableEq

/-- One step of the component under an external event. -/
def step (cfg : SCConfig) (st : ChatState) : Event → ChatState
  | Event.typeInput s => { st with input := s }
  | Event.submit now rs => (sendMessage cfg st now rs).1
  | Event.wsOpen => { st with connected := true }
  | Event.wsClose => { st with connected := false }
  | Event.wsRaw r =>
    match onWsMessage st r with
    | Except.ok st' => st'
    | Except.error _ => st
  | Event.minimize => { st with showBrowser := false }

/-- Run the component over a sequence of external events. -/
def run (cfg : SCConfig) (st : ChatState) (evs : List Event) : ChatState :=
  evs.foldl (step cfg) st

/-- A turn is Pending while its `response` field is still unset. -/
def isPending (t : Turn) : Bool := t.response.isNone

/-- Number of Pending turns in a transcript. -/
def pendingCount (msgs : List Turn) : Nat :=
  (msgs.filter isPending).length

/-- Default props instance. -/
def cfgD : SCConfig := {}

/-- Delivery of a sequence of raw frames by the browser's event loop. Each
frame is one `onmessage` invocation; an uncaught exception thrown by
`JSON.parse` aborts only that invocation (the event loop isolates handler
invocations, so later frames are still delivered) and leaves the component
state exactly as it was. -/
def deliverAll (st : ChatState) : List Raw → ChatState
  | [] => st
  | r :: rs =>
    match onWsMessage st r with
    | Except.ok st' => deliverAll st' rs
    | Except.error _ => deliverAll st rs

/-- The state invariant of `StreamingChat`: every transcript entry is a
user turn, every entry except possibly the last is Answered, and whenever
`loading` is clear the whole transcript is Answered. -/
def Inv (st : ChatState) : Prop :=
  (∀ t ∈ st.messages, t.ty = "user") ∧
  (∀ t ∈ st.messages.dropLast, t.response.isSome = true) ∧
  (st.loading = false → ∀ t ∈ st.messages, t.response.isSome = true)

/-- The connection manager implicit in `connectWebSocket`: `onopen` sets
the connected flag; `onclose` clears it and schedules
`setTimeout(connectWebSocket, 3000)`; a firing timer runs
`connectWebSocket` again (one more connection attempt). `timers` holds the
delays (in milliseconds) of the reconnect timeouts currently scheduled, in
scheduling order; `connectAttempts` counts how many times
`connectWebSocket` has run. -/
structure ConnMgr where
  connected : Bool
  timers : List Nat
  connectAttempts : Nat
deriving Repr, DecidableEq

/-- State after the initial `connectWebSocket()` call on mount. -/
def connInit : ConnMgr :=
  { connected := false, timers := [], connectAttempts := 1 }

/-- Events seen by the connection manager: the socket opening, the socket
closing, and a scheduled reconnect timeout firing. No user action appears
anywhere in this alphabet. -/
inductive ConnEvent where
  | opened
  | closed
  | timerFired
deriving Repr, DecidableEq

/-- One step of the connection manager. `closed` runs the `onclose`
handler (`setConnected(false); setTimeout(connectWebSocket, 3000)`);
`timerFired` consumes the oldest pending timeout and runs
`connectWebSocket` (a fresh connection attempt). -/
def connStep (m : ConnMgr) : ConnEvent → ConnMgr
  | ConnEvent.opened => { m with connected := true }
  | ConnEvent.closed => { m with connected := false, timers := m.timers ++ [3000] }
  | ConnEvent.timerFired =>
    match m.timers with
    | [] => m
    | _ :: rest =>
      { m with timers := rest, connectAttempts := m.connectAttempts + 1 }

/-- Run the connection manager over a sequence of events. -/
def connRun (m : ConnMgr) (evs : List ConnEvent) : ConnMgr :=
  evs.foldl connStep m

/-- `n` repetitions of "the connection drops, then the scheduled reconnect
timeout fires". -/
def closeFireSeq : Nat → List ConnEvent
  | 0 => []
  | n + 1 => ConnEvent.closed :: ConnEvent.timerFired :: closeFireSeq n

end StreamingChat

namespace TerminalChat

open StreamingChat (Project)

/-- One transcript entry of `TerminalChat` (`frontend/src/App.js`). Created
by `sendMessage` as `{type:'user', content, timestamp}`; the remaining
fields are assigned by `loadChatHistory`, by the success handler, or by the
error handler. `browserUseResult` is kept opaque. -/
structure TTurn where
  ty : String
  content : String
  timestamp : Nat
  response : Option String := none
  screenshot : Option String := none
  needsBrowser : Option Bool := none
  projectCreated : Option Project := none
  browserUseResult : Option String := none
  vncUrl : Option String := none
  conversationContinues : Option Bool := none
deriving Repr, DecidableEq

/-- One element of the `chat-history/{session_id}` payload, as the fields
are read by `loadChatHistory`: `message`, `timestamp`, `response` (the
persisted answer of a completed exchange), and the optional
`screenshot`, `browser_action`, `project_created`, `browser_use_result`,
`vnc_url`, `conversation_continues`. -/
structure HistoryEntry where
  message : String
  timestamp : Nat
  response : String
  screenshot : Option String := none
  browser_action : Option String := none
  project_created : Option Project := none
  browser_use_result : Option String := none
  vnc_url : Option String := none
  conversation_continues : Option Bool := none
deriving Repr, DecidableEq

/-- The body of a successful `POST /api/chat` response, as read by the
success handler (`data.needs_browser` is `false` when absent, matching JS
truthiness). -/
structure ChatOk where
  response : String
  screenshot : Option String := none
  needs_browser : Bool := false
  browser_action : Option String := none
  project_created : Option Project := none
  browser_use_result : Option String := none
  vnc_url : Option String := none
  conversation_continues : Option Bool := none
deriving Repr, DecidableEq

/-- Outcome of the `fetch` of `/api/chat`: a 2xx response with a decoded
body, a non-2xx status (which `sendMessage` turns into a thrown error), or
a network failure (fetch rejects). -/
inductive FetchResult where
  | ok (d : ChatOk)
  | httpError (status : Nat)
  | networkError
deriving Repr, DecidableEq

/-- `response.ok` seen from `sendMessage`: only the 2xx case reaches the
success handler, every other outcome lands in the `catch` block. -/
def FetchResult.isOk : FetchResult → Bool
  | FetchResult.ok _ => true
  | _ => false

/-- The React state of `TerminalChat` relevant to the transcript:
`messages`, `input`, `loading`. -/
structure TState where
  messages : List TTurn
  input : String
  loading : Bool
deriving Repr, DecidableEq

/-- Initial state of the component's `useState` hooks. -/
def initT : TState := { messages := [], input := "", loading := false }

/-- How `loadChatHistory` reconstructs one persisted entry:
`{type:'user', content: msg.message, timestamp, response: msg.response,
screenshot, needsBrowser: msg.browser_action !== null,
projectCreated, browserUseResult, vncUrl,
conversationContinues: msg.conversation_continues !== false}`. -/
def histTurn (e : HistoryEntry) : TTurn :=
  { ty := "user", content := e.message, timestamp := e.timestamp,
    response := some e.response,
    screenshot := e.screenshot,
    needsBrowser := some e.browser_action.isSome,
    projectCreated := e.project_created,
    browserUseResult := e.browser_use_result,
    vncUrl := e.vnc_url,
    conversationContinues := some (e.conversation_continues != some false) }

/-- `loadChatHistory()`: on a 2xx history response, `setMessages` replaces
the whole transcript with the mapped entries; on a non-2xx response or a
network error, the transcript is left as it is. -/
def loadChatHistory (st : TState) (result : Option (List HistoryEntry)) : TState :=
  match result with
  | some history => { st with messages := history.map histTurn }
  | none => st

/-- The fixed message written by the `catch` block of `sendMessage`. -/
def errorResponseText : String :=
  "Error: Failed to send message. Please try again."

/-- The success handler's assignments to the last user message:
`response = data.response`, `screenshot`, `needsBrowser =
data.needs_browser || data.browser_action !== null`, `projectCreated`,
`browserUseResult`, `vncUrl`, `conversationContinues =
data.conversation_continues !== false`. -/
def applyChatOk (d : ChatOk) (t : TTurn) : TTurn :=
  { t with
    response := some d.response
    screenshot := d.screenshot
    needsBrowser := some (d.needs_browser || d.browser_action.isSome)
    projectCreated := d.project_created
    browserUseResult := d.browser_use_result
    vncUrl := d.vnc_url
    conversationContinues := some (d.conversation_continues != some false) }

/-- The `catch` block's assignments to the last user message. -/
def applyChatErr (t : TTurn) : TTurn :=
  { t with
    response := some errorResponseText
    conversationContinues := some true }

/-- `sendMessage()` of `TerminalChat`: guard
`if (!input.trim() || loading) return;`, optimistic append of the user
turn with `loading = true`, then either the success handler (2xx) or the
`catch` block (non-2xx throw or network error) mutates that last turn, and
`finally` clears `loading`. The REST outcome is passed in explicitly since
its arrival is a separate event of the JS event loop. -/
def sendMessage (st : TState) (now : Nat) (fr : FetchResult) : TState :=
  if jsTrim st.input == "" || st.loading then st
  else
    let userMessage : TTurn :=
      { ty := "user", content := jsTrim st.input, timestamp := now }
    let st1 := { st with
      messages := st.messages ++ [userMessage]
      loading := true
      input := "" }
    match fr with
    | FetchResult.ok d =>
      { st1 with
        messages :=
          StreamingChat.setLastIfUser (fun t => t.ty == "user") (applyChatOk d)
            st1.messages
        loading := false }
    | _ =>
      { st1 with
        messages :=
          StreamingChat.setLastIfUser (fun t => t.ty == "user") applyChatErr
            st1.messages
        loading := false }

/-- The value the success handler passes to `onBrowserToggle`
(`frontend/src/App.js`): the JS truthiness of
`data.needs_browser || data.browser_use_result ||
data.browser_action !== null`. -/
def showBrowserSignal (d : ChatOk) : Bool :=
  d.needs_browser || d.browser_use_result.isSome || d.browser_action.isSome

/-- The App-level viewport flag after one `sendMessage` round with REST
outcome `fr`. On a 2xx response the success handler always calls
`onBrowserToggle(showBrowser)` and `App.handleBrowserToggle` runs
`setShowBrowser(needsBrowser)`, overwriting the flag with the incoming
signal whatever its current value; on a failed request the `catch` block
invokes no toggle callback and the flag keeps its previous value. -/
def showBrowserAfter (prev : Bool) (fr : FetchResult) : Bool :=
  match fr with
  | FetchResult.ok d => showBrowserSignal d
  | _ => prev

end TerminalChat

namespace StreamingChat

/-- Concrete inbound event with answer text `"first answer"`. -/
def evFirst : AiResponse :=
  { content := "first answer", provider := "openai", model := "gpt-4" }

/-- Concrete inbound event with answer text `"second answer"`. -/
def evSecond : AiResponse :=
  { content := "second answer", provider := "openai", model := "gpt-4" }

/-- Concrete inbound event requesting the browser view
(`needs_browser = true`). -/
def evNeedsBrowser : AiResponse :=
  { content := "done", provider := "openai", model := "gpt-4",
    needs_browser := true }

/-- Concrete trace: connect, type `"hi"`, click send. Leaves one Pending
turn and `loading = true`. -/
def trOneSend : List Event :=
  [Event.wsOpen, Event.typeInput "hi", Event.submit 0 true]

/-- Concrete trace: connect, send `"hi"`, and receive its answer. Leaves a
one-entry transcript whose only turn is Answered and no Pending turn. -/
def trAnsweredOnce : List Event :=
  trOneSend ++ [Event.wsRaw (Raw.wellFormed (WsData.aiResponse evFirst))]

/-- Concrete trace: connect, send `"go"`, receive an answer with
`needs_browser = true` (viewport becomes visible), then the user clicks
`Minimize` (viewport manually hidden). -/
def trManuallyHidden : List Event :=
  [Event.wsOpen, Event.typeInput "go", Event.submit 0 true,
   Event.wsRaw (Raw.wellFormed (WsData.aiResponse evNeedsBrowser)),
   Event.minimize]

/-- A concrete already-Answered turn. -/
def wAnswered : Turn :=
  { ty := "user", content := "earlier", timestamp := 0, id := "0",
    response := some "earlier answer", provider := some "openai",
    model := some "gpt-4", needs_browser := some false }

/-- A concrete Pending turn. -/
def wPending : Turn :=
  { ty := "user", content := "hi", timestamp := 1, id := "1" }

/-- A concrete state with one Answered turn followed by one Pending turn. -/
def wStateTwo : ChatState :=
  { messages := [wAnswered, wPending], input := "", loading := true,
    connected := true, showBrowser := false, projects := [],
    browserSession := none }

/-- A concrete state whose whole transcript is Answered (no Pending turn). -/
def wStateAnswered : ChatState :=
  { messages := [wAnswered], input := "", loading := false,
    connected := true, showBrowser := false, projects := [],
    browserSession := none }

/-- The `project_created` record of the spec's todo-app scenario. -/
def todoProject : Project :=
  { project_name := "todo-app", template := "react-express",
    files_created := ["a", "b"] }

/-- The completion event of the spec's todo-app scenario. -/
def todoEvent : AiResponse :=
  { content := "Done", provider := "openai", model := "gpt-4",
    project_created := some todoProject }

/-- Concrete trace: connect, type `"Create a todo app"`, click send. -/
def trTodo : List Event :=
  [Event.wsOpen, Event.typeInput "Create a todo app", Event.submit 0 true]

/-- Final state of the todo-app scenario: the submit followed by the
completion event carrying `project_created`. -/
def todoFinal : ChatState :=
  run cfgD initState
    (trTodo ++ [Event.wsRaw (Raw.wellFormed (WsData.aiResponse todoEvent))])

/-- A concrete state with the send guard satisfied and the socket flag set
(`connected = true`) — used for the sends-without-open-socket scenario. -/
def wStateReady : ChatState :=
  { initState with input := "hello", connected := true }

end StreamingChat

namespace TerminalChat

/-- A concrete two-entry chat-history payload. -/
def wHistory : List HistoryEntry :=
  [{ message := "q1", timestamp := 1, response := "a1" },
   { message := "q2", timestamp := 2, response := "a2",
     browser_action := some "click" }]

/-- A concrete `TerminalChat` state with text typed and no request in
flight. -/
def wReadyT : TState := { messages := [], input := "hello", loading := false }

/-- A concrete successful `/chat` response carrying no browser signal at
all: `needs_browser` falsy, no `browser_use_result`, `browser_action`
null. -/
def wPlainOk : ChatOk := { response := "ok" }

end TerminalChat
namespace StreamingChat

theorem setLastIfUser_append {α : Type} (p : α → Bool) (f : α → α)
    (ms : List α) (t : α) :
    setLastIfUser p f (ms ++ [t]) = ms ++ [if p t then f t else t] := by
  induction ms with
  | nil => rfl
  | cons a as ih =>
    cases as with
    | nil => simp [setLastIfUser]
    | cons b bs => simpa [setLastIfUser] using ih

theorem setLastIfUser_length {α : Type} (p : α → Bool) (f : α → α)
    (l : List α) :
    (setLastIfUser p f l).length = l.length := by
  rcases List.eq_nil_or_concat l with rfl | ⟨ms, t, rfl⟩
  · rfl
  · rw [List.concat_eq_append, setLastIfUser_append]
    simp

theorem completeLast_append (ms : List Turn) (t : Turn) (e : AiResponse)
    (hty : t.ty = "user") :
    completeLast (ms ++ [t]) e = ms ++ [applyResponse t e] := by
  rw [completeLast, setLastIfUser_append]
  simp [hty]

theorem sendMessage_rejected (cfg : SCConfig) (st : ChatState) (now : Nat)
    (rs : Bool) (h : submitRejected st = true) :
    sendMessage cfg st now rs = (st, none) := by
  simp [sendMessage, h]

theorem dropLast_single_append {α : Type} (ms : List α) (t : α) :
    (ms ++ [t]).dropLast = ms := by
  simp

theorem inv_init : Inv initState := by
  refine ⟨?_, ?_, ?_⟩ <;> simp [initState, Inv]

theorem inv_step (cfg : SCConfig) (st : ChatState) (ev : Event)
    (h : Inv st) : Inv (step cfg st ev) := by
  obtain ⟨h1, h2, h3⟩ := h
  cases ev with
  | typeInput s => exact ⟨h1, h2, h3⟩
  | wsOpen => exact ⟨h1, h2, h3⟩
  | wsClose => exact ⟨h1, h2, h3⟩
  | minimize => exact ⟨h1, h2, h3⟩
  | submit now rs =>
    show Inv (sendMessage cfg st now rs).1
    cases hrej : submitRejected st with
    | true =>
      rw [sendMessage_rejected cfg st now rs hrej]
      exact ⟨h1, h2, h3⟩
    | false =>
      have hload : st.loading = false := by
        cases hl : st.loading
        · rfl
        · simp [submitRejected, hl] at hrej
      have hall := h3 hload
      have hinv' : Inv { st with
          messages := st.messages ++ [newUserTurn (jsTrim st.input) now],
          loading := true, input := "" } := by
        refine ⟨?_, ?_, ?_⟩
        · intro u hu
          rcases List.mem_append.mp hu with hm | hm
          · exact h1 u hm
          · rcases List.mem_singleton.mp hm with rfl
            rfl
        · intro u hu
          rw [show ({ st with
              messages := st.messages ++ [newUserTurn (jsTrim st.input) now],
              loading := true, input := "" } : ChatState).messages
            = st.messages ++ [newUserTurn (jsTrim st.input) now] from rfl,
            dropLast_single_append] at hu
          exact hall u hu
        · intro hf
          simp at hf
      simp only [sendMessage, hrej]
      cases rs
      · simpa using hinv'
      · simpa using hinv'
  | wsRaw r =>
    cases r with
    | malformed text => exact ⟨h1, h2, h3⟩
    | wellFormed d =>
      cases d with
      | other ty2 => exact ⟨h1, h2, h3⟩
      | aiResponse e =>
        have hmsgs :
            (step cfg st (Event.wsRaw (Raw.wellFormed (WsData.aiResponse e)))).messages
              = completeLast st.messages e := rfl
        rcases List.eq_nil_or_concat st.messages with hnil | ⟨ms, t, hconc⟩
        · have hml : completeLast st.messages e = [] := by
            rw [hnil]; rfl
          refine ⟨?_, ?_, ?_⟩
          · intro u hu; rw [hmsgs, hml] at hu; simp at hu
          · intro u hu; rw [hmsgs, hml] at hu; simp at hu
          · intro _ u hu; rw [hmsgs, hml] at hu; simp at hu
        · rw [List.concat_eq_append] at hconc
          have hty : t.ty = "user" := h1 t (by rw [hconc]; simp)
          have hcl : completeLast st.messages e = ms ++ [applyResponse t e] := by
            rw [hconc]; exact completeLast_append ms t e hty
          have hdl : ∀ u ∈ ms, u.response.isSome = true := by
            intro u hu
            apply h2
            rw [hconc, dropLast_single_append]
            exact hu
          refine ⟨?_, ?_, ?_⟩
          · intro u hu
            rw [hmsgs, hcl] at hu
            rcases List.mem_append.mp hu with hm | hm
            · exact h1 u (by rw [hconc]; exact List.mem_append.mpr (Or.inl hm))
            · rcases List.mem_singleton.mp hm with rfl
              exact hty
          · intro u hu
            rw [hmsgs, hcl, dropLast_single_append] at hu
            exact hdl u hu
          · intro _ u hu
            rw [hmsgs, hcl] at hu
            rcases List.mem_append.mp hu with hm | hm
            · exact hdl u hm
            · rcases List.mem_singleton.mp hm with rfl
              rfl

theorem inv_run (cfg : SCConfig) (st : ChatState) (evs : List Event)
    (h : Inv st) : Inv (run cfg st evs) := by
  induction evs generalizing st with
  | nil => exact h
  | cons ev evs ih => exact ih (step cfg st ev) (inv_step cfg st ev h)

end StreamingChat
namespace StreamingChat

theorem getLast_single_append {α : Type} (ms : List α) (t : α) :
    (ms ++ [t]).getLast? = some t := by
  simp

theorem pendingCount_le_one (msgs : List Turn)
    (h : ∀ t ∈ msgs.dropLast, t.response.isSome = true) :
    pendingCount msgs ≤ 1 := by
  rcases List.eq_nil_or_concat msgs with rfl | ⟨ms, u, rfl⟩
  · simp [pendingCount]
  · rw [List.concat_eq_append] at h ⊢
    rw [dropLast_single_append] at h
    rw [pendingCount, List.filter_append]
    have hms : ms.filter isPending = [] := by
      rw [List.filter_eq_nil_iff]
      intro a ha
      have hs := h a ha
      cases hr : a.response with
      | none => rw [hr] at hs; simp at hs
      | some v => simp [isPending, hr]
    rw [hms]
    cases hp : isPending u <;> simp [List.filter_singleton, hp]

theorem loading_of_pending (st : ChatState) (hinv : Inv st)
    (h : st.messages.any isPending = true) : st.loading = true := by
  cases hl : st.loading
  · exfalso
    obtain ⟨t, ht, hp⟩ := List.any_eq_true.mp h
    have hs := hinv.2.2 hl t ht
    simp [isPending] at hp
    rw [hp] at hs
    simp at hs
  · rfl

/-- C1: along every event trace of `StreamingChat`, at most one Pending
turn ever exists, and a `sendMessage` call made while a Pending turn
exists or while the connection is not open is rejected: the state is
returned unchanged (no turn appended, transcript untouched) and no payload
is sent. Likewise in `TerminalChat`, a `sendMessage` call made while a
request is in flight (`loading`) leaves the state unchanged. -/
theorem submit_busy_rejected (cfg : SCConfig) (tr : List Event) :
    pendingCount (run cfg initState tr).messages ≤ 1 ∧
    (∀ (now : Nat) (rs : Bool),
      ((run cfg initState tr).messages.any isPending = true ∨
        (run cfg initState tr).connected = false) →
      sendMessage cfg (run cfg initState tr) now rs
        = (run cfg initState tr, none)) ∧
    (∀ (stT : TerminalChat.TState) (now : Nat) (fr : TerminalChat.FetchResult),
      stT.loading = true → TerminalChat.sendMessage stT now fr = stT) := by
  have hinv := inv_run cfg initState tr inv_init
  refine ⟨pendingCount_le_one _ hinv.2.1, ?_, ?_⟩
  · intro now rs h
    apply sendMessage_rejected
    rcases h with h | h
    · have hl := loading_of_pending _ hinv h
      simp [submitRejected, hl]
    · simp [submitRejected, h]
  · intro stT now fr hl
    simp [TerminalChat.sendMessage, hl]

/-- C1 witness: after connect, typing `"hi"` and one send, a Pending turn
exists; a second send is rejected with the state unchanged, and the
pending count is at most one. -/
theorem submit_busy_rejected_witness :
    pendingCount (run cfgD initState trOneSend).messages ≤ 1 ∧
    sendMessage cfgD (run cfgD initState trOneSend) 1 true
      = (run cfgD initState trOneSend, none) ∧
    TerminalChat.sendMessage
        ({ messages := [], input := "x", loading := true } : TerminalChat.TState)
        0 TerminalChat.FetchResult.networkError
      = ({ messages := [], input := "x", loading := true } : TerminalChat.TState) :=
  ⟨(submit_busy_rejected cfgD trOneSend).1,
   (submit_busy_rejected cfgD trOneSend).2.1 1 true (Or.inl (by decide)),
   (submit_busy_rejected cfgD trOneSend).2.2
     ({ messages := [], input := "x", loading := true } : TerminalChat.TState)
     0 TerminalChat.FetchResult.networkError rfl⟩

/-- C2: delivering an `ai_response` to a transcript whose single Pending
turn is the most recent entry mutates only that turn: its fields are set
verbatim from the event, its status becomes Answered (`response` set), and
every earlier turn and the transcript order are unchanged. -/
theorem ai_response_completes_pending (st : ChatState) (ms : List Turn)
    (t : Turn) (e : AiResponse) (hm : st.messages = ms ++ [t])
    (hty : t.ty = "user") (hpend : t.response = none)
    (hprev : ∀ u ∈ ms, u.response.isSome = true) :
    (handleWebSocketMessage st (WsData.aiResponse e)).messages
      = ms ++ [applyResponse t e] ∧
    applyResponse t e
      = { t with
          response := some e.content,
          provider := some e.provider,
          model := some e.model,
          browser_action := e.browser_action,
          screenshot := e.screenshot,
          project_created := e.project_created,
          needs_browser := some e.needs_browser } ∧
    (applyResponse t e).response.isSome = true := by
  refine ⟨?_, rfl, rfl⟩
  show completeLast st.messages e = ms ++ [applyResponse t e]
  rw [hm]
  exact completeLast_append ms t e hty

/-- C2 witness: a transcript of one Answered and one Pending turn; the
event answers exactly the Pending one and keeps the Answered one. -/
theorem ai_response_completes_pending_witness :
    (handleWebSocketMessage wStateTwo (WsData.aiResponse evFirst)).messages
      = [wAnswered] ++ [applyResponse wPending evFirst] :=
  (ai_response_completes_pending wStateTwo [wAnswered] wPending evFirst rfl rfl rfl
    (by decide)).1

/-- C3 counterexample: after `trAnsweredOnce` every turn of the transcript
is Answered (no Pending turn exists), yet delivering one more `ai_response`
changes the transcript — the already-Answered most recent turn is
overwritten, contradicting both "the transcript is unchanged" and
"Answered turns are never mutated again". -/
theorem answered_turn_overwritten :
    (run cfgD initState trAnsweredOnce).messages.all
      (fun t => t.response.isSome) = true ∧
    (step cfgD (run cfgD initState trAnsweredOnce)
        (Event.wsRaw (Raw.wellFormed (WsData.aiResponse evSecond)))).messages
      ≠ (run cfgD initState trAnsweredOnce).messages := by
  decide

/-- C3 (amended): an `ai_response` arriving on an empty transcript leaves
the transcript unchanged; but on any nonempty transcript the event always
rewrites the most recent user turn — even one that is already Answered, so
Answered turns are not immune to later events. -/
theorem ai_response_no_pending (st : ChatState) (e : AiResponse) :
    (st.messages = [] →
      (handleWebSocketMessage st (WsData.aiResponse e)).messages = []) ∧
    (∀ ms t, st.messages = ms ++ [t] → t.ty = "user" →
      (handleWebSocketMessage st (WsData.aiResponse e)).messages
        = ms ++ [applyResponse t e]) := by
  constructor
  · intro hnil
    show completeLast st.messages e = []
    rw [hnil]
    rfl
  · intro ms t hm hty
    show completeLast st.messages e = ms ++ [applyResponse t e]
    rw [hm]
    exact completeLast_append ms t e hty

/-- C3 witness: on the empty transcript the event is a transcript no-op;
on a transcript whose only turn is Answered the event overwrites it. -/
theorem ai_response_no_pending_witness :
    (handleWebSocketMessage initState (WsData.aiResponse evSecond)).messages
      = [] ∧
    (handleWebSocketMessage wStateAnswered (WsData.aiResponse evSecond)).messages
      = [] ++ [applyResponse wAnswered evSecond] :=
  ⟨(ai_response_no_pending initState evSecond).1 rfl,
   (ai_response_no_pending wStateAnswered evSecond).2 [] wAnswered rfl rfl⟩

/-- C4 counterexample: in `StreamingChat` the viewport is auto-shown by a
`needs_browser` completion, manually hidden via `Minimize`, and then a
further automatic `needs_browser = true` completion immediately re-shows
it — the manual hide does not persist until the user expands again. And on
the App path, a visible viewport is automatically hidden by a successful
response carrying no browser signal — an automatic signal does transition
the viewport from a visible state to Hidden. -/
theorem manual_hide_overridden :
    (run cfgD initState (trManuallyHidden.take 4)).showBrowser = true ∧
    (run cfgD initState trManuallyHidden).showBrowser = false ∧
    (run cfgD initState (trManuallyHidden
        ++ [Event.wsRaw (Raw.wellFormed (WsData.aiResponse evNeedsBrowser))])).showBrowser
      = true ∧
    TerminalChat.showBrowserAfter true (TerminalChat.FetchResult.ok
        TerminalChat.wPlainOk) = false := by
  decide

/-- C4 (amended): a manual hide does not persist against automatic
signals, and automatic hiding differs by component. In `StreamingChat` a
completion event updates the viewport flag to `previous OR needs_browser`:
there an automatic signal never transitions the viewport from visible to
hidden, but a `needs_browser = true` completion always shows it, including
immediately after a manual hide. On the App path every successful response
overwrites the viewport flag with the event-derived signal
(`needs_browser || browser_use_result || browser_action !== null`),
independently of the flag's current value — so there an automatic signal
can also hide a visible viewport — while a failed request leaves the flag
unchanged. -/
theorem viewport_auto_show (st : ChatState) (e : AiResponse)
    (prev : Bool) (d : TerminalChat.ChatOk) :
    (handleWebSocketMessage st (WsData.aiResponse e)).showBrowser
      = (st.showBrowser || e.needs_browser) ∧
    TerminalChat.showBrowserAfter prev (TerminalChat.FetchResult.ok d)
      = (d.needs_browser || d.browser_use_result.isSome
          || d.browser_action.isSome) ∧
    TerminalChat.showBrowserAfter prev TerminalChat.FetchResult.networkError
      = prev ∧
    (∀ s : Nat,
      TerminalChat.showBrowserAfter prev (TerminalChat.FetchResult.httpError s)
        = prev) := by
  refine ⟨?_, rfl, rfl, fun s => rfl⟩
  show (if e.needs_browser then true else st.showBrowser) = _
  cases e.needs_browser <;> simp

/-- C5: every `closed` transition runs the `onclose` handler, which clears
the connected flag and schedules a reconnect timeout of exactly 3000 ms —
no user action appears in the event alphabet — and for every `n`, `n`
successive close-then-timeout rounds produce exactly `n` further
`connectWebSocket` attempts: the retry loop repeats without limit. -/
theorem reconnect_on_close (m : ConnMgr) :
    connStep m ConnEvent.closed
      = { m with connected := false, timers := m.timers ++ [3000] } ∧
    ∀ n : Nat,
      (connRun m (closeFireSeq n)).connectAttempts = m.connectAttempts + n := by
  refine ⟨rfl, ?_⟩
  intro n
  induction n generalizing m with
  | zero => rfl
  | succ k ih =>
    have h1 : (connStep (connStep m ConnEvent.closed)
        ConnEvent.timerFired).connectAttempts = m.connectAttempts + 1 := by
      cases hm : m.timers <;> simp [connStep, hm]
    have h2 : connRun m (closeFireSeq (k + 1))
        = connRun (connStep (connStep m ConnEvent.closed) ConnEvent.timerFired)
            (closeFireSeq k) := rfl
    rw [h2, ih, h1]
    omega

/-- C6: a malformed inbound frame makes `JSON.parse` throw: the delivery
yields a decode error with no state mutation, and since the event loop
isolates handler invocations, delivering any frame sequence containing the
malformed frame equals delivering the sequence without it — the subscriber
loop survives and transcript, viewport and ledger are unchanged by the bad
frame. -/
theorem malformed_payload_dropped (st : ChatState) (text : String)
    (pre rest : List Raw) :
    onWsMessage st (Raw.malformed text) = Except.error "DecodeError" ∧
    deliverAll st (Raw.malformed text :: rest) = deliverAll st rest ∧
    deliverAll st (pre ++ Raw.malformed text :: rest)
      = deliverAll st (pre ++ rest) := by
  refine ⟨rfl, rfl, ?_⟩
  induction pre generalizing st with
  | nil => rfl
  | cons r rs ih =>
    cases r with
    | malformed t2 =>
      simp only [List.cons_append, deliverAll, onWsMessage, decodeRaw]
      exact ih st
    | wellFormed d =>
      simp only [List.cons_append, deliverAll, onWsMessage, decodeRaw]
      exact ih (handleWebSocketMessage st d)

/-- C8: a completion event carrying a `project_created` record appends
exactly that record to the ledger — nothing is removed or mutated, and
there is no deduplication (a duplicate record is appended again). -/
theorem project_recorded (st : ChatState) (e : AiResponse) (p : Project)
    (hp : e.project_created = some p) :
    (handleWebSocketMessage st (WsData.aiResponse e)).projects
      = st.projects ++ [p] := by
  show (match e.project_created with
        | some q => st.projects ++ [q]
        | none => st.projects) = st.projects ++ [p]
  rw [hp]

/-- C8 witness: the todo-app scenario — submit "Create a todo app" and
receive `project_created = {todo-app, react-express, [a, b]}`: the ledger
receives that single record; its length is 1, the name is "todo-app" and
the file count is 2. -/
theorem project_recorded_witness :
    (handleWebSocketMessage (run cfgD initState trTodo)
        (WsData.aiResponse todoEvent)).projects
      = (run cfgD initState trTodo).projects ++ [todoProject] ∧
    todoFinal.projects.length = 1 ∧
    todoFinal.projects.map Project.project_name = ["todo-app"] ∧
    todoFinal.projects.map (fun p => p.files_created.length) = [2] :=
  ⟨project_recorded (run cfgD initState trTodo) todoEvent todoProject rfl,
   by decide, by decide, by decide⟩

/-- C10: with the `sendMessage` guard satisfied (nonempty trimmed input,
not loading, connected flag set) but the socket's `readyState` not OPEN at
send time, the Pending turn is still appended and `loading` still set,
while no payload at all is written to the socket. -/
theorem send_guard_passes_socket_closed (cfg : SCConfig) (st : ChatState)
    (now : Nat) (hin : (jsTrim st.input == "") = false)
    (hld : st.loading = false) (hco : st.connected = true) :
    sendMessage cfg st now false
      = ({ st with
            messages := st.messages ++ [newUserTurn (jsTrim st.input) now],
            loading := true, input := "" }, none) := by
  simp [sendMessage, submitRejected, hin, hld, hco]

/-- C10 witness: a connected state with input `"hello"`: the send with a
non-OPEN socket appends the Pending turn, sets loading, sends nothing. -/
theorem send_guard_passes_socket_closed_witness :
    sendMessage cfgD wStateReady 7 false
      = ({ wStateReady with
            messages := wStateReady.messages
              ++ [newUserTurn (jsTrim wStateReady.input) 7],
            loading := true, input := "" }, none) :=
  send_guard_passes_socket_closed cfgD wStateReady 7 (by decide) rfl rfl

end StreamingChat
namespace TerminalChat

theorem sendMessage_accepted_length (st : TState) (now : Nat)
    (fr : FetchResult) (hin : (jsTrim st.input == "") = false)
    (hld : st.loading = false) :
    (sendMessage st now fr).messages.length = st.messages.length + 1 ∧
    (sendMessage st now fr).loading = false := by
  cases fr <;>
    simp [sendMessage, hin, hld, StreamingChat.setLastIfUser_length]

/-- C7: a successful `chat-history` payload of `N` entries replaces the
whole transcript with exactly `N` already-Answered turns whose content and
response match the payload in order, and `loadChatHistory` is idempotent:
loading the identical payload again yields the identical state. -/
theorem loadChatHistory_replaces (st : TState) (h : List HistoryEntry) :
    (loadChatHistory st (some h)).messages.length = h.length ∧
    (loadChatHistory st (some h)).messages.map TTurn.content
      = h.map HistoryEntry.message ∧
    (loadChatHistory st (some h)).messages.map TTurn.response
      = h.map (fun e => some e.response) ∧
    (∀ t ∈ (loadChatHistory st (some h)).messages, t.response.isSome = true) ∧
    loadChatHistory (loadChatHistory st (some h)) (some h)
      = loadChatHistory st (some h) := by
  refine ⟨by simp [loadChatHistory], ?_, ?_, ?_, rfl⟩
  · show (h.map histTurn).map TTurn.content = _
    rw [List.map_map]
    rfl
  · show (h.map histTurn).map TTurn.response = _
    rw [List.map_map]
    rfl
  · intro t ht
    have ht' : t ∈ h.map histTurn := ht
    rcases List.mem_map.mp ht' with ⟨e, he, rfl⟩
    rfl

/-- C7 witness: a concrete two-entry history payload replaces the empty
transcript by two turns, idempotently. -/
theorem loadChatHistory_replaces_witness :
    (loadChatHistory initT (some wHistory)).messages.length
      = wHistory.length ∧
    loadChatHistory (loadChatHistory initT (some wHistory)) (some wHistory)
      = loadChatHistory initT (some wHistory) :=
  ⟨(loadChatHistory_replaces initT wHistory).1,
   (loadChatHistory_replaces initT wHistory).2.2.2.2⟩

/-- C9: when the guard passes but the REST `/chat` call fails (non-2xx
status, which the code turns into a thrown error, or a network error), the
error handler adds and removes nothing — the transcript holds exactly the
one optimistically appended turn — that turn's `response` becomes the
fixed string `"Error: Failed to send message. Please try again."`,
`loading` is cleared, and a subsequent send with nonempty input is
accepted again (it appends a new turn). -/
theorem send_failure_inline_error (st : TState) (now : Nat)
    (fr : FetchResult) (hin : (jsTrim st.input == "") = false)
    (hld : st.loading = false) (hfr : fr.isOk = false) :
    (sendMessage st now fr).messages.length = st.messages.length + 1 ∧
    (sendMessage st now fr).messages.getLast?
      = some { ty := "user",
               content := jsTrim st.input,
               timestamp := now,
               response := some errorResponseText,
               conversationContinues := some true } ∧
    (sendMessage st now fr).loading = false ∧
    (∀ (i2 : String) (now2 : Nat) (fr2 : FetchResult),
      (jsTrim i2 == "") = false →
      (sendMessage { sendMessage st now fr with input := i2 } now2
          fr2).messages.length
        = (sendMessage st now fr).messages.length + 1) := by
  have hacc := sendMessage_accepted_length st now fr hin hld
  refine ⟨hacc.1, ?_, hacc.2, ?_⟩
  · cases fr with
    | ok d => simp [FetchResult.isOk] at hfr
    | httpError s =>
      simp [sendMessage, hin, hld, StreamingChat.setLastIfUser_append,
        applyChatErr, StreamingChat.getLast_single_append]
    | networkError =>
      simp [sendMessage, hin, hld, StreamingChat.setLastIfUser_append,
        applyChatErr, StreamingChat.getLast_single_append]
  · intro i2 now2 fr2 hi2
    have h2 := sendMessage_accepted_length
      { sendMessage st now fr with input := i2 } now2 fr2 hi2 hacc.2
    exact h2.1

/-- C9 witness: input `"hello"`, network failure: one turn appended with
the fixed error response, loading cleared, and a follow-up send with input
`"again"` is accepted. -/
theorem send_failure_inline_error_witness :
    (sendMessage wReadyT 0 FetchResult.networkError).messages.length
      = wReadyT.messages.length + 1 ∧
    (sendMessage wReadyT 0 FetchResult.networkError).messages.getLast?
      = some { ty := "user",
               content := jsTrim wReadyT.input,
               timestamp := 0,
               response := some errorResponseText,
               conversationContinues := some true } ∧
    (sendMessage wReadyT 0 FetchResult.networkError).loading = false ∧
    (sendMessage { sendMessage wReadyT 0 FetchResult.networkError with
          input := "again" } 1 FetchResult.networkError).messages.length
      = (sendMessage wReadyT 0 FetchResult.networkError).messages.length
          + 1 :=
  ⟨(send_failure_inline_error wReadyT 0 FetchResult.networkError (by decide)
      rfl rfl).1,
   (send_failure_inline_error wReadyT 0 FetchResult.networkError (by decide)
      rfl rfl).2.1,
   (send_failure_inline_error wReadyT 0 FetchResult.networkError (by decide)
      rfl rfl).2.2.1,
   (send_failure_inline_error wReadyT 0 FetchResult.networkError (by decide)
      rfl rfl).2.2.2 "again" 1 FetchResult.networkError (by decide)⟩

end TerminalChat
